import Mathlib

/-!
Shallow embedding of the run-lifecycle poller and its collaborators from the
Apify Actor Runner App, together with theorems settling the specification
claims about them.

Sources embedded:
- the client-side ApifyClient (makeRequest, getActors, getActorSchema, getRun,
  getRunDataset, waitForRun);
- the server-side express route for the blocking wait endpoint (pollRun) and
  its shared request helper;
- the frontend proxy ApiClient (makeRequest and the ApiError it raises).

Modelling conventions:
- JSON values are the inductive Jval; JavaScript truthiness of a value is
  Jval.truthy, and the implicit string coercion applied by the Error
  constructor is Jval.toJSString.
- Optional record fields are Option; the JavaScript idiom x || d on a string
  field is jsOrStr, which falls back on the empty string exactly as
  truthiness does.
- Network effects are an explicit environment: ApifyEnv.getRun k is the
  response to the k-th run-status request issued so far, and
  ApifyEnv.getItems d is the response of the dataset-items endpoint for the
  dataset id d. Except.error carries the message of the thrown error.
- Wall-clock time: elapsedAt n is the elapsed time, in ms since loop entry,
  observed at the n-th deadline check of a poll loop. The run-status fetch
  issued after a passing check is taken to start at that same instant, so
  the start times of the fetches are the recorded elapsedAt values.
- The loops recurse on an explicit fuel bound; PollResult.outOfFuel never
  arises once the fuel exceeds the number of iterations, which the theorems
  always guarantee through their hypotheses.
-/

inductive Jval where
  | jnull : Jval
  | jbool (b : Bool) : Jval
  | jnum (n : Int) : Jval
  | jstr (s : String) : Jval
  | jarr (elems : List Jval) : Jval
  | jobj (fields : List (String × Jval)) : Jval

namespace Jval

/-- Property access v.k as JavaScript resolves it on parsed JSON: a lookup on
objects, undefined (none) on everything else. -/
def getField : Jval → String → Option Jval
  | jobj fields, key => fields.lookup key
  | _, _ => none

/-- JavaScript truthiness of a JSON value. -/
def truthy : Jval → Bool
  | jnull => false
  | jbool b => b
  | jnum n => n != 0
  | jstr s => s != ""
  | jarr _ => true
  | jobj _ => true

mutual

/-- The string JavaScript coerces a JSON value to (String(v)). -/
def toJSString : Jval → String
  | jnull => "null"
  | jbool true => "true"
  | jbool false => "false"
  | jnum n => toString n
  | jstr s => s
  | jarr elems => String.intercalate "," (elemsToJSString elems)
  | jobj _ => "[object Object]"

/-- Array elements under String(v): null becomes the empty string inside a
join, every other element is coerced recursively. -/
def elemsToJSString : List Jval → List String
  | [] => []
  | jnull :: rest => "" :: elemsToJSString rest
  | v :: rest => toJSString v :: elemsToJSString rest

end

end Jval

/-- The JavaScript expression v || fallback, for v an optional JSON value:
keeps v when it is present and truthy, otherwise yields the fallback. -/
def jsStringOr (v : Option Jval) (fallback : String) : String :=
  match v with
  | some j => if j.truthy then j.toJSString else fallback
  | none => fallback

/-- The JavaScript expression s || fallback on an optional string field:
absent and empty strings fall back, every other string is kept. -/
def jsOrStr (s : Option String) (fallback : String) : String :=
  match s with
  | some str => if str = "" then fallback else str
  | none => fallback

/-- The JavaScript expression v || fallback on an optional JSON field. -/
def jsOrJval (v : Option Jval) (fallback : Jval) : Jval :=
  match v with
  | some j => if j.truthy then j else fallback
  | none => fallback

/-- RunRecord: the remote snapshot of one run, as read by both pollers. -/
structure RunRecord where
  id : String
  status : String
  statusMessage : Option String
  defaultDatasetId : Option String
  finishedAt : Option String
  stats : Option Jval

/-- RunOutcome: the consolidated value both pollers build on success. -/
structure RunOutcome where
  status : String
  finishedAt : Option String
  stats : Option Jval
  dataset : List Jval
  run : RunRecord

/-- Result of one whole poll loop. The success and failure payloads mirror
the source; fetchFailed is a run-status request whose error propagated. -/
inductive PollResult where
  | success (outcome : RunOutcome) : PollResult
  | runFailed (message : String) : PollResult
  | timedOut (message : String) : PollResult
  | fetchFailed (message : String) : PollResult
  | outOfFuel : PollResult

/-- The remote platform as both pollers observe it. -/
structure ApifyEnv where
  getRun : Nat → Except String RunRecord
  getItems : String → Except String (List Jval)

/-- A status the loops classify as still pending: not SUCCEEDED and not in
the closed failure set. -/
def RunRecord.pendingStatus (r : RunRecord) : Prop :=
  r.status ≠ "SUCCEEDED" ∧ r.status ≠ "FAILED" ∧ r.status ≠ "ABORTED" ∧
    r.status ≠ "TIMED-OUT"

instance (r : RunRecord) : Decidable r.pendingStatus := by
  unfold RunRecord.pendingStatus
  infer_instance

/-- The JavaScript call s.toLowerCase(): every character lowercased. This is
Char.toLower mapped over the characters, written over the character list so
that it computes structurally. -/
def jsToLowerCase (s : String) : String :=
  String.mk (s.data.map Char.toLower)

/-- The failure message template shared verbatim by the client loop and the
server loop. -/
def runFailureMessage (run : RunRecord) : String :=
  "Actor run " ++ jsToLowerCase run.status ++ ": " ++
    jsOrStr run.statusMessage "No error message available"

namespace ApifyClient

/-- The fixed inter-poll delay of waitForRun. -/
def pollIntervalMs : Nat := 2000

/-- The default maxWaitTime parameter of waitForRun. -/
def defaultMaxWaitTime : Nat := 300000

/-- getRun: one run-status request; an error is rethrown with the fetch
context text in front. -/
def getRun (env : ApifyEnv) (k : Nat) : Except String RunRecord :=
  match env.getRun k with
  | Except.ok r => Except.ok r
  | Except.error e => Except.error ("Failed to fetch run details: " ++ e)

/-- getRunDataset: refetches the run, reads defaultDatasetId off the fresh
record, fetches the items when the id is truthy, and converts every failure
on the way into the empty list. -/
def getRunDataset (env : ApifyEnv) (k : Nat) : List Jval :=
  match getRun env k with
  | Except.error _ => []
  | Except.ok run =>
    match run.defaultDatasetId with
    | none => []
    | some datasetId =>
      if datasetId = "" then []
      else
        match env.getItems datasetId with
        | Except.ok items => items
        | Except.error _ => []

/-- The while loop of waitForRun. The loop counter n is both the iteration
index and the count of run-status requests made so far; the returned list
records the elapsed time at which each run-status fetch of the loop started.
The deadline check (elapsed strictly below maxWaitTime) sits in front of the
fetch, exactly as the while condition does. -/
def waitForRunAux (env : ApifyEnv) (elapsedAt : Nat → Nat) (maxWaitTime : Nat) :
    Nat → Nat → PollResult × List Nat
  | 0, _ => (PollResult.outOfFuel, [])
  | fuel + 1, n =>
    if elapsedAt n < maxWaitTime then
      match getRun env n with
      | Except.error e => (PollResult.fetchFailed e, [elapsedAt n])
      | Except.ok run =>
        if run.status = "SUCCEEDED" then
          (PollResult.success
            { status := run.status, finishedAt := run.finishedAt,
              stats := run.stats, dataset := getRunDataset env (n + 1),
              run := run },
           [elapsedAt n])
        else if run.status = "FAILED" ∨ run.status = "ABORTED" ∨
            run.status = "TIMED-OUT" then
          (PollResult.runFailed (runFailureMessage run), [elapsedAt n])
        else
          let rest := waitForRunAux env elapsedAt maxWaitTime fuel (n + 1)
          (rest.1, elapsedAt n :: rest.2)
    else
      (PollResult.timedOut "Actor run timed out - taking longer than expected",
       [])

/-- waitForRun enters the loop at iteration 0. -/
def waitForRun (env : ApifyEnv) (elapsedAt : Nat → Nat) (maxWaitTime : Nat)
    (fuel : Nat) : PollResult × List Nat :=
  waitForRunAux env elapsedAt maxWaitTime fuel 0

end ApifyClient

namespace ServerWait

/-- The hardcoded poll budget of the wait endpoint. -/
def maxWaitTime : Nat := 300000

/-- The hardcoded inter-poll delay of the wait endpoint. -/
def pollIntervalMs : Nat := 2000

/-- The inline dataset fetch of the server success branch: it reads
defaultDatasetId off the record the loop already holds, and any items-fetch
failure leaves the dataset empty. -/
def fetchDatasetOnSuccess (env : ApifyEnv) (run : RunRecord) : List Jval :=
  match run.defaultDatasetId with
  | none => []
  | some datasetId =>
    if datasetId = "" then []
    else
      match env.getItems datasetId with
      | Except.ok items => items
      | Except.error _ => []

/-- The recursive pollRun of the wait endpoint. The deadline check rejects
only once the elapsed time is strictly greater than maxWaitTime, so a fetch
may still start at exactly the deadline. -/
def pollRunAux (env : ApifyEnv) (elapsedAt : Nat → Nat) :
    Nat → Nat → PollResult × List Nat
  | 0, _ => (PollResult.outOfFuel, [])
  | fuel + 1, n =>
    if maxWaitTime < elapsedAt n then
      (PollResult.timedOut "Run timed out - taking longer than expected", [])
    else
      match env.getRun n with
      | Except.error e => (PollResult.fetchFailed e, [elapsedAt n])
      | Except.ok run =>
        if run.status = "SUCCEEDED" then
          (PollResult.success
            { status := run.status, finishedAt := run.finishedAt,
              stats := run.stats, dataset := fetchDatasetOnSuccess env run,
              run := run },
           [elapsedAt n])
        else if run.status = "FAILED" ∨ run.status = "ABORTED" ∨
            run.status = "TIMED-OUT" then
          (PollResult.runFailed (runFailureMessage run), [elapsedAt n])
        else
          let rest := pollRunAux env elapsedAt fuel (n + 1)
          (rest.1, elapsedAt n :: rest.2)

/-- The wait endpoint enters pollRun at iteration 0. -/
def pollRun (env : ApifyEnv) (elapsedAt : Nat → Nat) (fuel : Nat) :
    PollResult × List Nat :=
  pollRunAux env elapsedAt fuel 0

end ServerWait

/-- What one fetch call produced, seen from the request helpers: a success
response whose body parse may fail, an HTTP error response whose body parse
may fail, or no HTTP response at all. -/
inductive FetchOutcome where
  | okResponse (parsedBody : Except String Jval) : FetchOutcome
  | httpErrorResponse (status : Nat) (statusText : String)
      (parsedBody : Option Jval) : FetchOutcome
  | networkFailure (message : String) : FetchOutcome

/-- The ApiError the frontend proxy client raises: a message and a numeric
status, 0 when no HTTP status was available. -/
structure ApiError where
  message : String
  status : Nat

/-- The path errorData.error?.message through a parsed body. -/
def errorMessageField (body : Jval) : Option Jval :=
  (body.getField "error").bind (fun e => e.getField "message")

/-- The fallback message HTTP status line, shared by every request helper. -/
def httpFallbackMessage (status : Nat) (statusText : String) : String :=
  "HTTP " ++ toString status ++ ": " ++ statusText

namespace ApifyClient

/-- The message of the error the direct client raises on a non-success HTTP
status: the error.message field of the parsed body when that parse succeeded
and the field is truthy, otherwise the HTTP status line. -/
def transportErrorMessage (status : Nat) (statusText : String)
    (parsedBody : Option Jval) : String :=
  match parsedBody with
  | none => httpFallbackMessage status statusText
  | some errorData =>
      jsStringOr (errorMessageField errorData)
        (httpFallbackMessage status statusText)

/-- makeRequest of the direct client: parse failures of a success body and
network failures propagate as their own message, HTTP errors raise the
extracted message. -/
def makeRequest : FetchOutcome → Except String Jval
  | FetchOutcome.okResponse (Except.ok body) => Except.ok body
  | FetchOutcome.okResponse (Except.error parseError) =>
      Except.error parseError
  | FetchOutcome.httpErrorResponse status statusText parsedBody =>
      Except.error (transportErrorMessage status statusText parsedBody)
  | FetchOutcome.networkFailure message => Except.error message

end ApifyClient

namespace ApiClient

/-- The message computed by the frontend proxy client on a non-success HTTP
status: the body parse falls back to an empty object, then error?.message
falls back to the HTTP status line. -/
def requestErrorMessage (status : Nat) (statusText : String)
    (parsedBody : Option Jval) : String :=
  jsStringOr (errorMessageField (parsedBody.getD (Jval.jobj [])))
    (httpFallbackMessage status statusText)

/-- makeRequest of the frontend proxy client: an ApiError raised inside the
try block is rethrown unchanged, and every other exception - including a
parse failure of a success body - becomes an ApiError with status 0. -/
def makeRequest : FetchOutcome → Except ApiError Jval
  | FetchOutcome.okResponse (Except.ok body) => Except.ok body
  | FetchOutcome.okResponse (Except.error parseError) =>
      Except.error { message := parseError, status := 0 }
  | FetchOutcome.httpErrorResponse status statusText parsedBody =>
      Except.error
        { message := requestErrorMessage status statusText parsedBody,
          status := status }
  | FetchOutcome.networkFailure message =>
      Except.error { message := message, status := 0 }

end ApiClient

/-- One job record as it arrives from the listing endpoint. -/
structure RawActor where
  id : String
  name : String
  title : Option String
  description : Option String
  stats : Option Jval

/-- The mapped listing entry. -/
structure ActorSummary where
  id : String
  name : String
  title : String
  description : String
  stats : Jval

/-- The stats object substituted for an absent stats field. -/
def defaultActorStats : Jval := Jval.jobj [("totalRuns", Jval.jnum 0)]

namespace ApifyClient

/-- The per-record mapping of getActors. -/
def mapActor (actor : RawActor) : ActorSummary :=
  { id := actor.id
    name := actor.name
    title := jsOrStr actor.title actor.name
    description := jsOrStr actor.description "No description available"
    stats := jsOrJval actor.stats defaultActorStats }

/-- getActors maps every listed record. -/
def getActors (items : List RawActor) : List ActorSummary :=
  items.map mapActor

end ApifyClient

/-- The defaultRunOptions object of a fetched actor definition. -/
structure DefaultRunOptions where
  inputSchema : Option Jval

/-- The data object of a fetched actor definition. -/
structure ActorDetail where
  defaultRunOptions : Option DefaultRunOptions

namespace ApifyClient

/-- getActorSchema on the result of its single fetch: a transport failure is
rewrapped with the schema context text, and an absent or falsy inputSchema
raises the fixed no-schema text, wrapped by the same catch with the same
context text. -/
def getActorSchema (fetched : Except String ActorDetail) :
    Except String Jval :=
  match fetched with
  | Except.error e => Except.error ("Failed to fetch actor schema: " ++ e)
  | Except.ok detail =>
    match detail.defaultRunOptions with
    | none =>
        Except.error ("Failed to fetch actor schema: " ++
          "No input schema found for this actor")
    | some opts =>
      match opts.inputSchema with
      | none =>
          Except.error ("Failed to fetch actor schema: " ++
            "No input schema found for this actor")
      | some schema =>
        if schema.truthy then Except.ok schema
        else
          Except.error ("Failed to fetch actor schema: " ++
            "No input schema found for this actor")

end ApifyClient

/-- Loop hypotheses bundle for the client loop: the first big-n checks all
pass the deadline and observe a pending status. -/
def clientPendingUntil (env : ApifyEnv) (elapsedAt : Nat → Nat)
    (maxWaitTime bigN : Nat) : Prop :=
  ∀ i, i < bigN →
    elapsedAt i < maxWaitTime ∧
      ∃ r, env.getRun i = Except.ok r ∧ r.pendingStatus

/-- Loop hypotheses bundle for the server loop: the first big-n checks all
pass the deadline (elapsed at most the budget) and observe a pending
status. -/
def serverPendingUntil (env : ApifyEnv) (elapsedAt : Nat → Nat)
    (bigN : Nat) : Prop :=
  ∀ i, i < bigN →
    elapsedAt i ≤ ServerWait.maxWaitTime ∧
      ∃ r, env.getRun i = Except.ok r ∧ r.pendingStatus

/- Concrete fixtures used by counterexamples and witnesses. -/

/-- A run that keeps reporting RUNNING. -/
def runningRun : RunRecord :=
  { id := "run_1", status := "RUNNING", statusMessage := none,
    defaultDatasetId := none, finishedAt := none, stats := none }

/-- A run reporting the unrecognized status READY. -/
def readyRun : RunRecord :=
  { id := "run_1", status := "READY", statusMessage := none,
    defaultDatasetId := none, finishedAt := none, stats := none }

/-- A successful run with an allocated dataset. -/
def succeededRunWithDs : RunRecord :=
  { id := "run_1", status := "SUCCEEDED", statusMessage := none,
    defaultDatasetId := some "ds_1",
    finishedAt := some "2025-01-01T00:00:00.000Z", stats := none }

/-- A successful run with no allocated dataset. -/
def succeededRunNoDs : RunRecord :=
  { id := "run_1", status := "SUCCEEDED", statusMessage := none,
    defaultDatasetId := none,
    finishedAt := some "2025-01-01T00:00:00.000Z", stats := none }

/-- A successful run whose dataset id is present but empty. -/
def succeededRunEmptyDs : RunRecord :=
  { id := "run_1", status := "SUCCEEDED", statusMessage := none,
    defaultDatasetId := some "",
    finishedAt := some "2025-01-01T00:00:00.000Z", stats := none }

/-- A failed run with a platform message. -/
def failedRunBadInput : RunRecord :=
  { id := "run_1", status := "FAILED", statusMessage := some "bad input",
    defaultDatasetId := none, finishedAt := none, stats := none }

/-- A failed run whose statusMessage is present but empty. -/
def failedRunEmptyMsg : RunRecord :=
  { id := "run_1", status := "FAILED", statusMessage := some "",
    defaultDatasetId := none, finishedAt := none, stats := none }

/-- A platform that keeps answering RUNNING. -/
def envAllRunning : ApifyEnv :=
  { getRun := fun _ => Except.ok runningRun,
    getItems := fun _ => Except.ok [] }

/-- A platform that keeps answering the unrecognized status READY. -/
def envAllReady : ApifyEnv :=
  { getRun := fun _ => Except.ok readyRun,
    getItems := fun _ => Except.ok [] }

/-- The single dataset item of the success fixtures. -/
def itemTitleX : Jval := Jval.jobj [("title", Jval.jstr "x")]

/-- A platform whose run succeeded and whose dataset ds_1 holds one item. -/
def envSucceedsWithItems : ApifyEnv :=
  { getRun := fun _ => Except.ok succeededRunWithDs,
    getItems := fun d =>
      if d = "ds_1" then Except.ok [itemTitleX] else Except.error "not found" }

/-- A platform whose run succeeded without an allocated dataset. -/
def envSucceedsNoDs : ApifyEnv :=
  { getRun := fun _ => Except.ok succeededRunNoDs,
    getItems := fun _ => Except.ok [itemTitleX] }

/-- A platform whose run succeeded with an empty dataset id, while the items
endpoint itself would answer with one item. -/
def envSucceedsEmptyDs : ApifyEnv :=
  { getRun := fun _ => Except.ok succeededRunEmptyDs,
    getItems := fun _ => Except.ok [itemTitleX] }

/-- A platform whose first run-status response carries dataset ds_1 and
whose later run-status responses lack it, while the items endpoint holds one
item: one identical sequence of responses that both loops could consume, on
which the client refetch reads a record the server never requests. -/
def envSucceedsThenNoDs : ApifyEnv :=
  { getRun := fun k =>
      if k = 0 then Except.ok succeededRunWithDs
      else Except.ok succeededRunNoDs,
    getItems := fun d =>
      if d = "ds_1" then Except.ok [itemTitleX] else Except.error "not found" }

/-- A platform whose run succeeded but whose dataset endpoint fails. -/
def envDatasetError : ApifyEnv :=
  { getRun := fun _ => Except.ok succeededRunWithDs,
    getItems := fun _ => Except.error "HTTP 500: Internal Server Error" }

/-- A platform whose run failed with a message. -/
def envFailedBadInput : ApifyEnv :=
  { getRun := fun _ => Except.ok failedRunBadInput,
    getItems := fun _ => Except.ok [] }

/-- A platform whose run failed with an empty message. -/
def envFailedEmptyMsg : ApifyEnv :=
  { getRun := fun _ => Except.ok failedRunEmptyMsg,
    getItems := fun _ => Except.ok [] }

/-- An HTTP error body whose error.message field is present but empty. -/
def emptyMessageBody : Jval :=
  Jval.jobj [("error", Jval.jobj [("message", Jval.jstr "")])]

/-- An HTTP error body carrying a normal error.message field. -/
def rateLimitBody : Jval :=
  Jval.jobj [("error", Jval.jobj [("message", Jval.jstr "Rate limit exceeded")])]

/- Helper lemmas about the two poll loops. -/

theorem pendingStatus_not_failure {r : RunRecord} (h : r.pendingStatus) :
    ¬(r.status = "FAILED" ∨ r.status = "ABORTED" ∨ r.status = "TIMED-OUT") := by
  rcases h with ⟨_, h2, h3, h4⟩
  intro hc
  rcases hc with h | h | h <;> contradiction

theorem client_step_timeout {env : ApifyEnv} {elapsedAt : Nat → Nat}
    {maxWaitTime fuel n : Nat} (h : ¬ elapsedAt n < maxWaitTime) :
    ApifyClient.waitForRunAux env elapsedAt maxWaitTime (fuel + 1) n =
      (PollResult.timedOut "Actor run timed out - taking longer than expected",
       []) := by
  simp [ApifyClient.waitForRunAux, h]

theorem client_step_pending {env : ApifyEnv} {elapsedAt : Nat → Nat}
    {maxWaitTime n : Nat} {r : RunRecord} (fuel : Nat)
    (hlt : elapsedAt n < maxWaitTime) (hr : env.getRun n = Except.ok r)
    (hp : r.pendingStatus) :
    ApifyClient.waitForRunAux env elapsedAt maxWaitTime (fuel + 1) n =
      ((ApifyClient.waitForRunAux env elapsedAt maxWaitTime fuel (n + 1)).1,
       elapsedAt n ::
         (ApifyClient.waitForRunAux env elapsedAt maxWaitTime fuel (n + 1)).2)
    := by
  have h2 := pendingStatus_not_failure hp
  simp [ApifyClient.waitForRunAux, ApifyClient.getRun, hlt, hr, hp.1, h2]

theorem client_step_success {env : ApifyEnv} {elapsedAt : Nat → Nat}
    {maxWaitTime n : Nat} {r : RunRecord} (fuel : Nat)
    (hlt : elapsedAt n < maxWaitTime) (hr : env.getRun n = Except.ok r)
    (hs : r.status = "SUCCEEDED") :
    ApifyClient.waitForRunAux env elapsedAt maxWaitTime (fuel + 1) n =
      (PollResult.success
        { status := r.status, finishedAt := r.finishedAt, stats := r.stats,
          dataset := ApifyClient.getRunDataset env (n + 1), run := r },
       [elapsedAt n]) := by
  simp [ApifyClient.waitForRunAux, ApifyClient.getRun, hlt, hr, hs]

theorem client_step_failed {env : ApifyEnv} {elapsedAt : Nat → Nat}
    {maxWaitTime n : Nat} {r : RunRecord} (fuel : Nat)
    (hlt : elapsedAt n < maxWaitTime) (hr : env.getRun n = Except.ok r)
    (hf : r.status = "FAILED" ∨ r.status = "ABORTED" ∨
      r.status = "TIMED-OUT") :
    ApifyClient.waitForRunAux env elapsedAt maxWaitTime (fuel + 1) n =
      (PollResult.runFailed (runFailureMessage r), [elapsedAt n]) := by
  have hns : ¬ r.status = "SUCCEEDED" := by
    rcases hf with h | h | h <;> simp [h]
  simp [ApifyClient.waitForRunAux, ApifyClient.getRun, hlt, hr, hns, hf]

theorem client_pending_shift (env : ApifyEnv) (elapsedAt : Nat → Nat)
    (maxWaitTime : Nat) (bigN : Nat) :
    ∀ (m fuel : Nat),
      (∀ i, i < bigN →
        elapsedAt (m + i) < maxWaitTime ∧
          ∃ r, env.getRun (m + i) = Except.ok r ∧ r.pendingStatus) →
      ApifyClient.waitForRunAux env elapsedAt maxWaitTime (bigN + fuel) m =
        ((ApifyClient.waitForRunAux env elapsedAt maxWaitTime fuel
            (m + bigN)).1,
         (List.range bigN).map (fun i => elapsedAt (m + i)) ++
           (ApifyClient.waitForRunAux env elapsedAt maxWaitTime fuel
             (m + bigN)).2) := by
  induction bigN with
  | zero =>
    intro m fuel _
    simp
  | succ bigN ih =>
    intro m fuel h
    obtain ⟨hlt, r, hr, hp⟩ := by simpa using h 0 (Nat.succ_pos bigN)
    have hstep := client_step_pending (bigN + fuel) hlt hr hp
    have hrec := ih (m + 1) fuel (by
      intro i hi
      have := h (i + 1) (by omega)
      have harg : m + (i + 1) = m + 1 + i := by omega
      rwa [harg] at this)
    have hfuel : bigN + 1 + fuel = bigN + fuel + 1 := by omega
    rw [hfuel, hstep, hrec]
    have hidx : m + 1 + bigN = m + (bigN + 1) := by omega
    rw [hidx]
    have hfun :
        ((fun i => elapsedAt (m + i)) ∘ Nat.succ) =
          (fun i => elapsedAt (m + 1 + i)) := by
      funext i
      simp only [Function.comp_apply]
      have harg : m + Nat.succ i = m + 1 + i := by omega
      rw [harg]
    simp [List.range_succ_eq_map, List.map_map, hfun]

theorem client_times_out {env : ApifyEnv} {elapsedAt : Nat → Nat}
    {maxWaitTime bigN fuel : Nat}
    (hpend : clientPendingUntil env elapsedAt maxWaitTime bigN)
    (hge : maxWaitTime ≤ elapsedAt bigN) (hfuel : bigN + 1 ≤ fuel) :
    ApifyClient.waitForRun env elapsedAt maxWaitTime fuel =
      (PollResult.timedOut "Actor run timed out - taking longer than expected",
       (List.range bigN).map elapsedAt) := by
  obtain ⟨k, rfl⟩ : ∃ k, fuel = bigN + (k + 1) := ⟨fuel - bigN - 1, by omega⟩
  have h0 : ∀ i, i < bigN →
      elapsedAt (0 + i) < maxWaitTime ∧
        ∃ r, env.getRun (0 + i) = Except.ok r ∧ r.pendingStatus := by
    intro i hi
    simpa using hpend i hi
  have hshift := client_pending_shift env elapsedAt maxWaitTime bigN 0 (k + 1) h0
  have hstop : ApifyClient.waitForRunAux env elapsedAt maxWaitTime (k + 1)
      (0 + bigN) =
      (PollResult.timedOut "Actor run timed out - taking longer than expected",
       []) := by
    apply client_step_timeout
    simpa using Nat.not_lt.mpr hge
  rw [ApifyClient.waitForRun, hshift, hstop]
  simp

theorem server_step_timeout {env : ApifyEnv} {elapsedAt : Nat → Nat}
    {fuel n : Nat} (h : ServerWait.maxWaitTime < elapsedAt n) :
    ServerWait.pollRunAux env elapsedAt (fuel + 1) n =
      (PollResult.timedOut "Run timed out - taking longer than expected",
       []) := by
  simp [ServerWait.pollRunAux, h]

theorem server_step_pending {env : ApifyEnv} {elapsedAt : Nat → Nat}
    {n : Nat} {r : RunRecord} (fuel : Nat)
    (hle : elapsedAt n ≤ ServerWait.maxWaitTime)
    (hr : env.getRun n = Except.ok r) (hp : r.pendingStatus) :
    ServerWait.pollRunAux env elapsedAt (fuel + 1) n =
      ((ServerWait.pollRunAux env elapsedAt fuel (n + 1)).1,
       elapsedAt n :: (ServerWait.pollRunAux env elapsedAt fuel (n + 1)).2)
    := by
  have h2 := pendingStatus_not_failure hp
  have hnot : ¬ ServerWait.maxWaitTime < elapsedAt n := Nat.not_lt.mpr hle
  simp [ServerWait.pollRunAux, hnot, hr, hp.1, h2]

theorem server_step_success {env : ApifyEnv} {elapsedAt : Nat → Nat}
    {n : Nat} {r : RunRecord} (fuel : Nat)
    (hle : elapsedAt n ≤ ServerWait.maxWaitTime)
    (hr : env.getRun n = Except.ok r) (hs : r.status = "SUCCEEDED") :
    ServerWait.pollRunAux env elapsedAt (fuel + 1) n =
      (PollResult.success
        { status := r.status, finishedAt := r.finishedAt, stats := r.stats,
          dataset := ServerWait.fetchDatasetOnSuccess env r, run := r },
       [elapsedAt n]) := by
  have hnot : ¬ ServerWait.maxWaitTime < elapsedAt n := Nat.not_lt.mpr hle
  simp [ServerWait.pollRunAux, hnot, hr, hs]

theorem server_step_failed {env : ApifyEnv} {elapsedAt : Nat → Nat}
    {n : Nat} {r : RunRecord} (fuel : Nat)
    (hle : elapsedAt n ≤ ServerWait.maxWaitTime)
    (hr : env.getRun n = Except.ok r)
    (hf : r.status = "FAILED" ∨ r.status = "ABORTED" ∨
      r.status = "TIMED-OUT") :
    ServerWait.pollRunAux env elapsedAt (fuel + 1) n =
      (PollResult.runFailed (runFailureMessage r), [elapsedAt n]) := by
  have hns : ¬ r.status = "SUCCEEDED" := by
    rcases hf with h | h | h <;> simp [h]
  have hnot : ¬ ServerWait.maxWaitTime < elapsedAt n := Nat.not_lt.mpr hle
  simp [ServerWait.pollRunAux, hnot, hr, hns, hf]

theorem server_pending_shift (env : ApifyEnv) (elapsedAt : Nat → Nat)
    (bigN : Nat) :
    ∀ (m fuel : Nat),
      (∀ i, i < bigN →
        elapsedAt (m + i) ≤ ServerWait.maxWaitTime ∧
          ∃ r, env.getRun (m + i) = Except.ok r ∧ r.pendingStatus) →
      ServerWait.pollRunAux env elapsedAt (bigN + fuel) m =
        ((ServerWait.pollRunAux env elapsedAt fuel (m + bigN)).1,
         (List.range bigN).map (fun i => elapsedAt (m + i)) ++
           (ServerWait.pollRunAux env elapsedAt fuel (m + bigN)).2) := by
  induction bigN with
  | zero =>
    intro m fuel _
    simp
  | succ bigN ih =>
    intro m fuel h
    obtain ⟨hle, r, hr, hp⟩ := by simpa using h 0 (Nat.succ_pos bigN)
    have hstep := server_step_pending (bigN + fuel) hle hr hp
    have hrec := ih (m + 1) fuel (by
      intro i hi
      have := h (i + 1) (by omega)
      have harg : m + (i + 1) = m + 1 + i := by omega
      rwa [harg] at this)
    have hfuel : bigN + 1 + fuel = bigN + fuel + 1 := by omega
    rw [hfuel, hstep, hrec]
    have hidx : m + 1 + bigN = m + (bigN + 1) := by omega
    rw [hidx]
    have hfun :
        ((fun i => elapsedAt (m + i)) ∘ Nat.succ) =
          (fun i => elapsedAt (m + 1 + i)) := by
      funext i
      simp only [Function.comp_apply]
      have harg : m + Nat.succ i = m + 1 + i := by omega
      rw [harg]
    simp [List.range_succ_eq_map, List.map_map, hfun]

theorem server_times_out {env : ApifyEnv} {elapsedAt : Nat → Nat}
    {bigN fuel : Nat}
    (hpend : serverPendingUntil env elapsedAt bigN)
    (hgt : ServerWait.maxWaitTime < elapsedAt bigN) (hfuel : bigN + 1 ≤ fuel) :
    ServerWait.pollRun env elapsedAt fuel =
      (PollResult.timedOut "Run timed out - taking longer than expected",
       (List.range bigN).map elapsedAt) := by
  obtain ⟨k, rfl⟩ : ∃ k, fuel = bigN + (k + 1) := ⟨fuel - bigN - 1, by omega⟩
  have h0 : ∀ i, i < bigN →
      elapsedAt (0 + i) ≤ ServerWait.maxWaitTime ∧
        ∃ r, env.getRun (0 + i) = Except.ok r ∧ r.pendingStatus := by
    intro i hi
    simpa using hpend i hi
  have hshift := server_pending_shift env elapsedAt bigN 0 (k + 1) h0
  have hstop : ServerWait.pollRunAux env elapsedAt (k + 1) (0 + bigN) =
      (PollResult.timedOut "Run timed out - taking longer than expected",
       []) := by
    apply server_step_timeout
    simpa using hgt
  rw [ServerWait.pollRun, hshift, hstop]
  simp

/- Claim C1. -/

/-- C1, counterexample: with the run pending forever and the second deadline
check happening exactly at the 300000 ms budget, the server wait endpoint
still issues a run-status fetch whose start time equals the deadline (its
fetch trace is [0, 300000]) instead of failing at that check, although the
elapsed time there is already ≥ maxWaitDuration; the claim as stated is
therefore false for the server loop. -/
theorem c1_counterexample :
    ServerWait.pollRun envAllRunning (fun n => 300000 * n) 4 =
      (PollResult.timedOut "Run timed out - taking longer than expected",
       [0, 300000]) ∧
    ServerWait.maxWaitTime ≤ 300000 :=
  ⟨rfl, by decide⟩

/-- C1, amended: for a run whose observed status stays non-terminal, the
client loop fails with its timeout error exactly at the first deadline check
whose elapsed time is ≥ maxWaitDuration, and the start times of its
run-status fetches are exactly the earlier check times, all strictly below
the deadline; the server loop fails with its timeout error exactly at the
first check whose elapsed time is strictly greater than its fixed 300000 ms
budget, and its fetch start times are the earlier check times, all at most
(hence possibly exactly at) the budget. -/
theorem c1_amended_poller_timeout
    (envC envS : ApifyEnv) (elapsedAtC elapsedAtS : Nat → Nat)
    (maxWaitTime bigN bigM fuelC fuelS : Nat)
    (hcPend : clientPendingUntil envC elapsedAtC maxWaitTime bigN)
    (hcGe : maxWaitTime ≤ elapsedAtC bigN) (hcFuel : bigN + 1 ≤ fuelC)
    (hsPend : serverPendingUntil envS elapsedAtS bigM)
    (hsGt : ServerWait.maxWaitTime < elapsedAtS bigM)
    (hsFuel : bigM + 1 ≤ fuelS) :
    ApifyClient.waitForRun envC elapsedAtC maxWaitTime fuelC =
      (PollResult.timedOut "Actor run timed out - taking longer than expected",
       (List.range bigN).map elapsedAtC) ∧
    ServerWait.pollRun envS elapsedAtS fuelS =
      (PollResult.timedOut "Run timed out - taking longer than expected",
       (List.range bigM).map elapsedAtS) :=
  ⟨client_times_out hcPend hcGe hcFuel, server_times_out hsPend hsGt hsFuel⟩

/-- C1 witness: the amended theorem at concrete inputs; the client instance
is exactly the spec scenario - maxWaitDuration 1000 ms, poll interval
2000 ms, first poll RUNNING - and makes one single fetch at elapsed 0 before
timing out; the server instance times out at its 151st check. -/
theorem c1_amended_poller_timeout_witness :
    ApifyClient.waitForRun envAllRunning (fun n => 2000 * n) 1000 2 =
      (PollResult.timedOut "Actor run timed out - taking longer than expected",
       (List.range 1).map (fun n => 2000 * n)) ∧
    ServerWait.pollRun envAllRunning (fun n => 2000 * n) 152 =
      (PollResult.timedOut "Run timed out - taking longer than expected",
       (List.range 151).map (fun n => 2000 * n)) :=
  c1_amended_poller_timeout envAllRunning envAllRunning
    (fun n => 2000 * n) (fun n => 2000 * n) 1000 1 151 2 152
    (by
      intro i hi
      have hi0 : i = 0 := by omega
      subst hi0
      exact ⟨by norm_num, runningRun, rfl, by decide⟩)
    (by norm_num)
    (by norm_num)
    (by
      intro i hi
      refine ⟨?_, runningRun, rfl, by decide⟩
      have hm : ServerWait.maxWaitTime = 300000 := rfl
      simp only [hm]
      omega)
    (by decide)
    (by norm_num)

theorem client_success_at {env : ApifyEnv} {elapsedAt : Nat → Nat}
    {maxWaitTime fuel : Nat} {r : RunRecord} (bigN : Nat)
    (hpend : clientPendingUntil env elapsedAt maxWaitTime bigN)
    (hlt : elapsedAt bigN < maxWaitTime)
    (hr : env.getRun bigN = Except.ok r) (hs : r.status = "SUCCEEDED")
    (hfuel : bigN + 1 ≤ fuel) :
    ApifyClient.waitForRun env elapsedAt maxWaitTime fuel =
      (PollResult.success
        { status := r.status, finishedAt := r.finishedAt, stats := r.stats,
          dataset := ApifyClient.getRunDataset env (bigN + 1), run := r },
       (List.range bigN).map elapsedAt ++ [elapsedAt bigN]) := by
  obtain ⟨k, rfl⟩ : ∃ k, fuel = bigN + (k + 1) := ⟨fuel - bigN - 1, by omega⟩
  have h0 : ∀ i, i < bigN →
      elapsedAt (0 + i) < maxWaitTime ∧
        ∃ r2, env.getRun (0 + i) = Except.ok r2 ∧ r2.pendingStatus := by
    intro i hi
    simpa using hpend i hi
  have hshift := client_pending_shift env elapsedAt maxWaitTime bigN 0 (k + 1) h0
  have hlt2 : elapsedAt (0 + bigN) < maxWaitTime := by simpa using hlt
  have hr2 : env.getRun (0 + bigN) = Except.ok r := by simpa using hr
  have hstep := client_step_success k hlt2 hr2 hs
  rw [ApifyClient.waitForRun, hshift, hstep]
  simp

theorem client_failed_at {env : ApifyEnv} {elapsedAt : Nat → Nat}
    {maxWaitTime fuel : Nat} {r : RunRecord} (bigN : Nat)
    (hpend : clientPendingUntil env elapsedAt maxWaitTime bigN)
    (hlt : elapsedAt bigN < maxWaitTime)
    (hr : env.getRun bigN = Except.ok r)
    (hf : r.status = "FAILED" ∨ r.status = "ABORTED" ∨
      r.status = "TIMED-OUT")
    (hfuel : bigN + 1 ≤ fuel) :
    ApifyClient.waitForRun env elapsedAt maxWaitTime fuel =
      (PollResult.runFailed (runFailureMessage r),
       (List.range bigN).map elapsedAt ++ [elapsedAt bigN]) := by
  obtain ⟨k, rfl⟩ : ∃ k, fuel = bigN + (k + 1) := ⟨fuel - bigN - 1, by omega⟩
  have h0 : ∀ i, i < bigN →
      elapsedAt (0 + i) < maxWaitTime ∧
        ∃ r2, env.getRun (0 + i) = Except.ok r2 ∧ r2.pendingStatus := by
    intro i hi
    simpa using hpend i hi
  have hshift := client_pending_shift env elapsedAt maxWaitTime bigN 0 (k + 1) h0
  have hlt2 : elapsedAt (0 + bigN) < maxWaitTime := by simpa using hlt
  have hr2 : env.getRun (0 + bigN) = Except.ok r := by simpa using hr
  have hstep := client_step_failed k hlt2 hr2 hf
  rw [ApifyClient.waitForRun, hshift, hstep]
  simp

theorem server_success_at {env : ApifyEnv} {elapsedAt : Nat → Nat}
    {fuel : Nat} {r : RunRecord} (bigN : Nat)
    (hpend : serverPendingUntil env elapsedAt bigN)
    (hle : elapsedAt bigN ≤ ServerWait.maxWaitTime)
    (hr : env.getRun bigN = Except.ok r) (hs : r.status = "SUCCEEDED")
    (hfuel : bigN + 1 ≤ fuel) :
    ServerWait.pollRun env elapsedAt fuel =
      (PollResult.success
        { status := r.status, finishedAt := r.finishedAt, stats := r.stats,
          dataset := ServerWait.fetchDatasetOnSuccess env r, run := r },
       (List.range bigN).map elapsedAt ++ [elapsedAt bigN]) := by
  obtain ⟨k, rfl⟩ : ∃ k, fuel = bigN + (k + 1) := ⟨fuel - bigN - 1, by omega⟩
  have h0 : ∀ i, i < bigN →
      elapsedAt (0 + i) ≤ ServerWait.maxWaitTime ∧
        ∃ r2, env.getRun (0 + i) = Except.ok r2 ∧ r2.pendingStatus := by
    intro i hi
    simpa using hpend i hi
  have hshift := server_pending_shift env elapsedAt bigN 0 (k + 1) h0
  have hle2 : elapsedAt (0 + bigN) ≤ ServerWait.maxWaitTime := by
    simpa using hle
  have hr2 : env.getRun (0 + bigN) = Except.ok r := by simpa using hr
  have hstep := server_step_success k hle2 hr2 hs
  rw [ServerWait.pollRun, hshift, hstep]
  simp

theorem server_failed_at {env : ApifyEnv} {elapsedAt : Nat → Nat}
    {fuel : Nat} {r : RunRecord} (bigN : Nat)
    (hpend : serverPendingUntil env elapsedAt bigN)
    (hle : elapsedAt bigN ≤ ServerWait.maxWaitTime)
    (hr : env.getRun bigN = Except.ok r)
    (hf : r.status = "FAILED" ∨ r.status = "ABORTED" ∨
      r.status = "TIMED-OUT")
    (hfuel : bigN + 1 ≤ fuel) :
    ServerWait.pollRun env elapsedAt fuel =
      (PollResult.runFailed (runFailureMessage r),
       (List.range bigN).map elapsedAt ++ [elapsedAt bigN]) := by
  obtain ⟨k, rfl⟩ : ∃ k, fuel = bigN + (k + 1) := ⟨fuel - bigN - 1, by omega⟩
  have h0 : ∀ i, i < bigN →
      elapsedAt (0 + i) ≤ ServerWait.maxWaitTime ∧
        ∃ r2, env.getRun (0 + i) = Except.ok r2 ∧ r2.pendingStatus := by
    intro i hi
    simpa using hpend i hi
  have hshift := server_pending_shift env elapsedAt bigN 0 (k + 1) h0
  have hle2 : elapsedAt (0 + bigN) ≤ ServerWait.maxWaitTime := by
    simpa using hle
  have hr2 : env.getRun (0 + bigN) = Except.ok r := by simpa using hr
  have hstep := server_step_failed k hle2 hr2 hf
  rw [ServerWait.pollRun, hshift, hstep]
  simp

theorem client_getRunDataset_empty {env : ApifyEnv} {k : Nat}
    (h : (∃ e, env.getRun k = Except.error e) ∨
      (∃ r2 d e, env.getRun k = Except.ok r2 ∧
        r2.defaultDatasetId = some d ∧ d ≠ "" ∧
        env.getItems d = Except.error e)) :
    ApifyClient.getRunDataset env k = [] := by
  rcases h with ⟨e, he⟩ | ⟨r2, d, e, hr2, hd, hdne, hi⟩
  · simp [ApifyClient.getRunDataset, ApifyClient.getRun, he]
  · simp [ApifyClient.getRunDataset, ApifyClient.getRun, hr2, hd, hdne, hi]

theorem server_fetchDataset_empty {env : ApifyEnv} {r : RunRecord}
    (h : ∃ d e, r.defaultDatasetId = some d ∧ d ≠ "" ∧
      env.getItems d = Except.error e) :
    ServerWait.fetchDatasetOnSuccess env r = [] := by
  obtain ⟨d, e, hd, hdne, hi⟩ := h
  simp [ServerWait.fetchDatasetOnSuccess, hd, hdne, hi]

/- Claim C2. -/

/-- C2: on a run observed in status SUCCEEDED, a failing dataset fetch - a
failed run refetch on the client side, or a failing items request on either
side - is never propagated: both loops still return a success result whose
dataset is the empty sequence. -/
theorem c2_dataset_failure_swallowed
    (envC envS : ApifyEnv) (elapsedAtC elapsedAtS : Nat → Nat)
    (maxWaitTime bigN bigM fuelC fuelS : Nat) (r rs : RunRecord)
    (hcPend : clientPendingUntil envC elapsedAtC maxWaitTime bigN)
    (hcLt : elapsedAtC bigN < maxWaitTime)
    (hcRun : envC.getRun bigN = Except.ok r) (hcSt : r.status = "SUCCEEDED")
    (hcDs :
      (∃ e, envC.getRun (bigN + 1) = Except.error e) ∨
      (∃ r2 d e, envC.getRun (bigN + 1) = Except.ok r2 ∧
        r2.defaultDatasetId = some d ∧ d ≠ "" ∧
        envC.getItems d = Except.error e))
    (hcFuel : bigN + 1 ≤ fuelC)
    (hsPend : serverPendingUntil envS elapsedAtS bigM)
    (hsLe : elapsedAtS bigM ≤ ServerWait.maxWaitTime)
    (hsRun : envS.getRun bigM = Except.ok rs) (hsSt : rs.status = "SUCCEEDED")
    (hsDs : ∃ d e, rs.defaultDatasetId = some d ∧ d ≠ "" ∧
      envS.getItems d = Except.error e)
    (hsFuel : bigM + 1 ≤ fuelS) :
    ApifyClient.waitForRun envC elapsedAtC maxWaitTime fuelC =
      (PollResult.success
        { status := r.status, finishedAt := r.finishedAt, stats := r.stats,
          dataset := [], run := r },
       (List.range bigN).map elapsedAtC ++ [elapsedAtC bigN]) ∧
    ServerWait.pollRun envS elapsedAtS fuelS =
      (PollResult.success
        { status := rs.status, finishedAt := rs.finishedAt,
          stats := rs.stats, dataset := [], run := rs },
       (List.range bigM).map elapsedAtS ++ [elapsedAtS bigM]) := by
  constructor
  · have h := client_success_at bigN hcPend hcLt hcRun hcSt hcFuel
    rwa [client_getRunDataset_empty hcDs] at h
  · have h := server_success_at bigM hsPend hsLe hsRun hsSt hsFuel
    rwa [server_fetchDataset_empty hsDs] at h

/-- C2 witness: on a platform whose run has succeeded with dataset ds_1 but
whose items endpoint answers HTTP 500, both loops still succeed with an
empty dataset. -/
theorem c2_dataset_failure_swallowed_witness :
    ApifyClient.waitForRun envDatasetError (fun n => 2000 * n) 300000 1 =
      (PollResult.success
        { status := "SUCCEEDED",
          finishedAt := some "2025-01-01T00:00:00.000Z", stats := none,
          dataset := [], run := succeededRunWithDs },
       [0]) ∧
    ServerWait.pollRun envDatasetError (fun n => 2000 * n) 1 =
      (PollResult.success
        { status := "SUCCEEDED",
          finishedAt := some "2025-01-01T00:00:00.000Z", stats := none,
          dataset := [], run := succeededRunWithDs },
       [0]) := by
  have h := c2_dataset_failure_swallowed envDatasetError envDatasetError
    (fun n => 2000 * n) (fun n => 2000 * n) 300000 0 0 1 1
    succeededRunWithDs succeededRunWithDs
    (by intro i hi; omega)
    (by norm_num)
    rfl
    rfl
    (Or.inr ⟨succeededRunWithDs, "ds_1", "HTTP 500: Internal Server Error",
      rfl, rfl, by decide, rfl⟩)
    (by norm_num)
    (by intro i hi; omega)
    (by decide)
    rfl
    rfl
    ⟨"ds_1", "HTTP 500: Internal Server Error", rfl, by decide, rfl⟩
    (by norm_num)
  exact h

/- Claim C3. -/

/-- C3, counterexample: a FAILED record whose statusMessage field is present
but empty. The claim says the error message then equals that statusMessage,
i.e. the empty string; the code instead falls back to the fixed text,
because the source keys on JavaScript truthiness, not on presence. -/
theorem c3_counterexample :
    failedRunEmptyMsg.statusMessage = some "" ∧
    ApifyClient.waitForRun envFailedEmptyMsg (fun n => 2000 * n) 300000 2 =
      (PollResult.runFailed "Actor run failed: No error message available",
       [0]) ∧
    ServerWait.pollRun envFailedEmptyMsg (fun n => 2000 * n) 2 =
      (PollResult.runFailed "Actor run failed: No error message available",
       [0]) :=
  ⟨rfl, rfl, rfl⟩

/-- C3, amended: on a record observed in FAILED, ABORTED or TIMED-OUT, both
loops fail with the message Actor run d: m, where the detail d is the
lowercase of the status and m is the statusMessage when it is present and
non-empty, and the fixed text No error message available when it is absent
or empty. -/
theorem c3_amended_runfailed_message
    (envC envS : ApifyEnv) (elapsedAtC elapsedAtS : Nat → Nat)
    (maxWaitTime bigN bigM fuelC fuelS : Nat) (r rs : RunRecord)
    (hcPend : clientPendingUntil envC elapsedAtC maxWaitTime bigN)
    (hcLt : elapsedAtC bigN < maxWaitTime)
    (hcRun : envC.getRun bigN = Except.ok r)
    (hcF : r.status = "FAILED" ∨ r.status = "ABORTED" ∨
      r.status = "TIMED-OUT")
    (hcFuel : bigN + 1 ≤ fuelC)
    (hsPend : serverPendingUntil envS elapsedAtS bigM)
    (hsLe : elapsedAtS bigM ≤ ServerWait.maxWaitTime)
    (hsRun : envS.getRun bigM = Except.ok rs)
    (hsF : rs.status = "FAILED" ∨ rs.status = "ABORTED" ∨
      rs.status = "TIMED-OUT")
    (hsFuel : bigM + 1 ≤ fuelS) :
    ApifyClient.waitForRun envC elapsedAtC maxWaitTime fuelC =
      (PollResult.runFailed (runFailureMessage r),
       (List.range bigN).map elapsedAtC ++ [elapsedAtC bigN]) ∧
    ServerWait.pollRun envS elapsedAtS fuelS =
      (PollResult.runFailed (runFailureMessage rs),
       (List.range bigM).map elapsedAtS ++ [elapsedAtS bigM]) ∧
    (∀ rr : RunRecord, ∀ m, rr.statusMessage = some m → m ≠ "" →
      runFailureMessage rr =
        "Actor run " ++ jsToLowerCase rr.status ++ ": " ++ m) ∧
    (∀ rr : RunRecord, rr.statusMessage = none →
      runFailureMessage rr =
        "Actor run " ++ jsToLowerCase rr.status ++ ": " ++
          "No error message available") ∧
    (∀ rr : RunRecord, rr.statusMessage = some "" →
      runFailureMessage rr =
        "Actor run " ++ jsToLowerCase rr.status ++ ": " ++
          "No error message available") := by
  refine ⟨client_failed_at bigN hcPend hcLt hcRun hcF hcFuel,
    server_failed_at bigM hsPend hsLe hsRun hsF hsFuel, ?_, ?_, ?_⟩
  · intro rr m hm hne
    simp [runFailureMessage, jsOrStr, hm, hne]
  · intro rr hm
    simp [runFailureMessage, jsOrStr, hm]
  · intro rr hm
    simp [runFailureMessage, jsOrStr, hm]

/-- C3 witness: the spec scenario - status FAILED, statusMessage bad input -
yields the failure message with detail failed and message bad input on both
loops. -/
theorem c3_amended_runfailed_message_witness :
    ApifyClient.waitForRun envFailedBadInput (fun n => 2000 * n) 300000 1 =
      (PollResult.runFailed "Actor run failed: bad input", [0]) ∧
    ServerWait.pollRun envFailedBadInput (fun n => 2000 * n) 1 =
      (PollResult.runFailed "Actor run failed: bad input", [0]) := by
  have h := c3_amended_runfailed_message envFailedBadInput envFailedBadInput
    (fun n => 2000 * n) (fun n => 2000 * n) 300000 0 0 1 1
    failedRunBadInput failedRunBadInput
    (by intro i hi; omega)
    (by norm_num)
    rfl
    (Or.inl rfl)
    (by norm_num)
    (by intro i hi; omega)
    (by decide)
    rfl
    (Or.inl rfl)
    (by norm_num)
  exact ⟨h.1, h.2.1⟩

/- Claim C4. -/

/-- C4: any status that is neither SUCCEEDED nor in the closed failure set -
including unrecognized values such as READY - is treated as pending by both
loops: a poll step observing it continues the loop at the next iteration
(recording the fetch it made), never fails fast, and a run that keeps
reporting such a status is bounded only by the timeout. -/
theorem c4_unrecognized_status_pending
    (env : ApifyEnv) (elapsedAt : Nat → Nat)
    (maxWaitTime fuel n : Nat) (r : RunRecord)
    (hp : r.pendingStatus) :
    (elapsedAt n < maxWaitTime → env.getRun n = Except.ok r →
      ApifyClient.waitForRunAux env elapsedAt maxWaitTime (fuel + 1) n =
        ((ApifyClient.waitForRunAux env elapsedAt maxWaitTime fuel (n + 1)).1,
         elapsedAt n ::
           (ApifyClient.waitForRunAux env elapsedAt maxWaitTime fuel
             (n + 1)).2)) ∧
    (elapsedAt n ≤ ServerWait.maxWaitTime → env.getRun n = Except.ok r →
      ServerWait.pollRunAux env elapsedAt (fuel + 1) n =
        ((ServerWait.pollRunAux env elapsedAt fuel (n + 1)).1,
         elapsedAt n :: (ServerWait.pollRunAux env elapsedAt fuel (n + 1)).2)) ∧
    (∀ bigN fuel2, clientPendingUntil env elapsedAt maxWaitTime bigN →
      maxWaitTime ≤ elapsedAt bigN → bigN + 1 ≤ fuel2 →
      ApifyClient.waitForRun env elapsedAt maxWaitTime fuel2 =
        (PollResult.timedOut
          "Actor run timed out - taking longer than expected",
         (List.range bigN).map elapsedAt)) := by
  refine ⟨?_, ?_, ?_⟩
  · intro hlt hr
    exact client_step_pending fuel hlt hr hp
  · intro hle hr
    exact server_step_pending fuel hle hr hp
  · intro bigN fuel2 hpend hge hfuel
    exact client_times_out hpend hge hfuel

/-- C4 witness: with every poll answering the unrecognized status READY,
one step of either loop continues into the next iteration, and with a
5000 ms budget the client loop makes three fetches and then times out. -/
theorem c4_unrecognized_status_pending_witness :
    ApifyClient.waitForRunAux envAllReady (fun n => 2000 * n) 5000 2 0 =
      ((ApifyClient.waitForRunAux envAllReady (fun n => 2000 * n) 5000 1 1).1,
       0 :: (ApifyClient.waitForRunAux envAllReady (fun n => 2000 * n) 5000
         1 1).2) ∧
    ServerWait.pollRunAux envAllReady (fun n => 2000 * n) 2 0 =
      ((ServerWait.pollRunAux envAllReady (fun n => 2000 * n) 1 1).1,
       0 :: (ServerWait.pollRunAux envAllReady (fun n => 2000 * n) 1 1).2) ∧
    ApifyClient.waitForRun envAllReady (fun n => 2000 * n) 5000 4 =
      (PollResult.timedOut "Actor run timed out - taking longer than expected",
       [0, 2000, 4000]) := by
  have h := c4_unrecognized_status_pending envAllReady (fun n => 2000 * n)
    5000 1 0 readyRun (by decide)
  refine ⟨h.1 (by norm_num) rfl, h.2.1 (by decide) rfl, ?_⟩
  have ht := h.2.2 3 4
    (by
      intro i hi
      refine ⟨?_, readyRun, rfl, by decide⟩
      show 2000 * i < 5000
      omega)
    (by norm_num)
    (by norm_num)
  exact ht

theorem client_getRunDataset_items {env : ApifyEnv} {k : Nat} {r : RunRecord}
    {d : String} {items : List Jval}
    (hr : env.getRun k = Except.ok r) (hd : r.defaultDatasetId = some d)
    (hdne : d ≠ "") (hi : env.getItems d = Except.ok items) :
    ApifyClient.getRunDataset env k = items := by
  simp [ApifyClient.getRunDataset, ApifyClient.getRun, hr, hd, hdne, hi]

theorem client_getRunDataset_noId {env : ApifyEnv} {k : Nat} {r : RunRecord}
    (hr : env.getRun k = Except.ok r) (hd : r.defaultDatasetId = none) :
    ApifyClient.getRunDataset env k = [] := by
  simp [ApifyClient.getRunDataset, ApifyClient.getRun, hr, hd]

theorem server_fetchDataset_items {env : ApifyEnv} {r : RunRecord}
    {d : String} {items : List Jval}
    (hd : r.defaultDatasetId = some d) (hdne : d ≠ "")
    (hi : env.getItems d = Except.ok items) :
    ServerWait.fetchDatasetOnSuccess env r = items := by
  simp [ServerWait.fetchDatasetOnSuccess, hd, hdne, hi]

theorem server_fetchDataset_noId {env : ApifyEnv} {r : RunRecord}
    (hd : r.defaultDatasetId = none) :
    ServerWait.fetchDatasetOnSuccess env r = [] := by
  simp [ServerWait.fetchDatasetOnSuccess, hd]

theorem client_getRunDataset_emptyId {env : ApifyEnv} {k : Nat}
    {r : RunRecord}
    (hr : env.getRun k = Except.ok r) (hd : r.defaultDatasetId = some "") :
    ApifyClient.getRunDataset env k = [] := by
  simp [ApifyClient.getRunDataset, ApifyClient.getRun, hr, hd]

theorem server_fetchDataset_emptyId {env : ApifyEnv} {r : RunRecord}
    (hd : r.defaultDatasetId = some "") :
    ServerWait.fetchDatasetOnSuccess env r = [] := by
  simp [ServerWait.fetchDatasetOnSuccess, hd]

/- Claim C5. -/

/-- C5, counterexample, two inputs. First, a succeeded run whose
defaultDatasetId is present but equal to the empty string: the claim says
the outcome dataset then equals the items of the dataset endpoint for that
id - here one item - but both loops skip the items request and return the
empty dataset, because the source keys on JavaScript truthiness of the id,
not on presence. Second, a run observed in SUCCEEDED with the non-empty id
ds_1 and one item behind it, whose next run-status response lacks the id:
the client refetches the run inside its dataset accessor, reads the later
record, and returns the empty dataset although the observed record has the
id and the endpoint has items - so the claim also fails for the client
whenever the refetch does not return the observed record unchanged. -/
theorem c5_counterexample :
    succeededRunEmptyDs.defaultDatasetId = some "" ∧
    envSucceedsEmptyDs.getItems "" = Except.ok [itemTitleX] ∧
    ApifyClient.waitForRun envSucceedsEmptyDs (fun n => 2000 * n) 300000 1 =
      (PollResult.success
        { status := "SUCCEEDED",
          finishedAt := some "2025-01-01T00:00:00.000Z", stats := none,
          dataset := [], run := succeededRunEmptyDs },
       [0]) ∧
    ServerWait.pollRun envSucceedsEmptyDs (fun n => 2000 * n) 1 =
      (PollResult.success
        { status := "SUCCEEDED",
          finishedAt := some "2025-01-01T00:00:00.000Z", stats := none,
          dataset := [], run := succeededRunEmptyDs },
       [0]) ∧
    succeededRunWithDs.defaultDatasetId = some "ds_1" ∧
    envSucceedsThenNoDs.getRun 0 = Except.ok succeededRunWithDs ∧
    envSucceedsThenNoDs.getItems "ds_1" = Except.ok [itemTitleX] ∧
    ApifyClient.waitForRun envSucceedsThenNoDs (fun n => 2000 * n) 300000 1 =
      (PollResult.success
        { status := "SUCCEEDED",
          finishedAt := some "2025-01-01T00:00:00.000Z", stats := none,
          dataset := [], run := succeededRunWithDs },
       [0]) ∧
    ([] : List Jval) ≠ [itemTitleX] :=
  ⟨rfl, rfl, rfl, rfl, rfl, rfl, rfl, rfl, fun h => List.noConfusion h⟩

/-- C5, amended: on a run observed in SUCCEEDED, the server loop returns a
dataset equal to exactly the items answered by the dataset endpoint when the
observed defaultDatasetId is present and non-empty, and the empty sequence -
without this being an error - when it is absent or present but empty (which
the code treats like absent); the client loop satisfies the same clauses
provided its dataset refetch returns the observed record unchanged, a
condition the second counterexample input shows to be necessary. -/
theorem c5_amended_success_dataset
    (envC envS : ApifyEnv) (elapsedAtC elapsedAtS : Nat → Nat)
    (maxWaitTime bigN bigM fuelC fuelS : Nat) (r rs : RunRecord)
    (hcPend : clientPendingUntil envC elapsedAtC maxWaitTime bigN)
    (hcLt : elapsedAtC bigN < maxWaitTime)
    (hcRun : envC.getRun bigN = Except.ok r) (hcSt : r.status = "SUCCEEDED")
    (hcAgain : envC.getRun (bigN + 1) = Except.ok r)
    (hcFuel : bigN + 1 ≤ fuelC)
    (hsPend : serverPendingUntil envS elapsedAtS bigM)
    (hsLe : elapsedAtS bigM ≤ ServerWait.maxWaitTime)
    (hsRun : envS.getRun bigM = Except.ok rs) (hsSt : rs.status = "SUCCEEDED")
    (hsFuel : bigM + 1 ≤ fuelS) :
    (∀ d items, r.defaultDatasetId = some d → d ≠ "" →
      envC.getItems d = Except.ok items →
      ApifyClient.waitForRun envC elapsedAtC maxWaitTime fuelC =
        (PollResult.success
          { status := r.status, finishedAt := r.finishedAt,
            stats := r.stats, dataset := items, run := r },
         (List.range bigN).map elapsedAtC ++ [elapsedAtC bigN])) ∧
    (r.defaultDatasetId = none →
      ApifyClient.waitForRun envC elapsedAtC maxWaitTime fuelC =
        (PollResult.success
          { status := r.status, finishedAt := r.finishedAt,
            stats := r.stats, dataset := [], run := r },
         (List.range bigN).map elapsedAtC ++ [elapsedAtC bigN])) ∧
    (r.defaultDatasetId = some "" →
      ApifyClient.waitForRun envC elapsedAtC maxWaitTime fuelC =
        (PollResult.success
          { status := r.status, finishedAt := r.finishedAt,
            stats := r.stats, dataset := [], run := r },
         (List.range bigN).map elapsedAtC ++ [elapsedAtC bigN])) ∧
    (∀ d items, rs.defaultDatasetId = some d → d ≠ "" →
      envS.getItems d = Except.ok items →
      ServerWait.pollRun envS elapsedAtS fuelS =
        (PollResult.success
          { status := rs.status, finishedAt := rs.finishedAt,
            stats := rs.stats, dataset := items, run := rs },
         (List.range bigM).map elapsedAtS ++ [elapsedAtS bigM])) ∧
    (rs.defaultDatasetId = none →
      ServerWait.pollRun envS elapsedAtS fuelS =
        (PollResult.success
          { status := rs.status, finishedAt := rs.finishedAt,
            stats := rs.stats, dataset := [], run := rs },
         (List.range bigM).map elapsedAtS ++ [elapsedAtS bigM])) ∧
    (rs.defaultDatasetId = some "" →
      ServerWait.pollRun envS elapsedAtS fuelS =
        (PollResult.success
          { status := rs.status, finishedAt := rs.finishedAt,
            stats := rs.stats, dataset := [], run := rs },
         (List.range bigM).map elapsedAtS ++ [elapsedAtS bigM])) := by
  refine ⟨?_, ?_, ?_, ?_, ?_, ?_⟩
  · intro d items hd hdne hi
    have h := client_success_at bigN hcPend hcLt hcRun hcSt hcFuel
    rwa [client_getRunDataset_items hcAgain hd hdne hi] at h
  · intro hd
    have h := client_success_at bigN hcPend hcLt hcRun hcSt hcFuel
    rwa [client_getRunDataset_noId hcAgain hd] at h
  · intro hd
    have h := client_success_at bigN hcPend hcLt hcRun hcSt hcFuel
    rwa [client_getRunDataset_emptyId hcAgain hd] at h
  · intro d items hd hdne hi
    have h := server_success_at bigM hsPend hsLe hsRun hsSt hsFuel
    rwa [server_fetchDataset_items hd hdne hi] at h
  · intro hd
    have h := server_success_at bigM hsPend hsLe hsRun hsSt hsFuel
    rwa [server_fetchDataset_noId hd] at h
  · intro hd
    have h := server_success_at bigM hsPend hsLe hsRun hsSt hsFuel
    rwa [server_fetchDataset_emptyId hd] at h

/-- C5 witness: with dataset ds_1 holding one item both loops return that
item as the whole dataset; with no allocated dataset both loops return the
empty dataset; and with a present-but-empty id both loops also return the
empty dataset. -/
theorem c5_amended_success_dataset_witness :
    ApifyClient.waitForRun envSucceedsWithItems (fun n => 2000 * n) 300000 1 =
      (PollResult.success
        { status := "SUCCEEDED",
          finishedAt := some "2025-01-01T00:00:00.000Z", stats := none,
          dataset := [itemTitleX], run := succeededRunWithDs },
       [0]) ∧
    ServerWait.pollRun envSucceedsWithItems (fun n => 2000 * n) 1 =
      (PollResult.success
        { status := "SUCCEEDED",
          finishedAt := some "2025-01-01T00:00:00.000Z", stats := none,
          dataset := [itemTitleX], run := succeededRunWithDs },
       [0]) ∧
    ApifyClient.waitForRun envSucceedsNoDs (fun n => 2000 * n) 300000 1 =
      (PollResult.success
        { status := "SUCCEEDED",
          finishedAt := some "2025-01-01T00:00:00.000Z", stats := none,
          dataset := [], run := succeededRunNoDs },
       [0]) ∧
    ServerWait.pollRun envSucceedsNoDs (fun n => 2000 * n) 1 =
      (PollResult.success
        { status := "SUCCEEDED",
          finishedAt := some "2025-01-01T00:00:00.000Z", stats := none,
          dataset := [], run := succeededRunNoDs },
       [0]) ∧
    ApifyClient.waitForRun envSucceedsEmptyDs (fun n => 2000 * n) 300000 1 =
      (PollResult.success
        { status := "SUCCEEDED",
          finishedAt := some "2025-01-01T00:00:00.000Z", stats := none,
          dataset := [], run := succeededRunEmptyDs },
       [0]) ∧
    ServerWait.pollRun envSucceedsEmptyDs (fun n => 2000 * n) 1 =
      (PollResult.success
        { status := "SUCCEEDED",
          finishedAt := some "2025-01-01T00:00:00.000Z", stats := none,
          dataset := [], run := succeededRunEmptyDs },
       [0]) := by
  have h1 := c5_amended_success_dataset envSucceedsWithItems
    envSucceedsWithItems (fun n => 2000 * n) (fun n => 2000 * n)
    300000 0 0 1 1 succeededRunWithDs succeededRunWithDs
    (by intro i hi; omega) (by norm_num) rfl rfl rfl (by norm_num)
    (by intro i hi; omega) (by decide) rfl rfl (by norm_num)
  have h2 := c5_amended_success_dataset envSucceedsNoDs envSucceedsNoDs
    (fun n => 2000 * n) (fun n => 2000 * n)
    300000 0 0 1 1 succeededRunNoDs succeededRunNoDs
    (by intro i hi; omega) (by norm_num) rfl rfl rfl (by norm_num)
    (by intro i hi; omega) (by decide) rfl rfl (by norm_num)
  have h3 := c5_amended_success_dataset envSucceedsEmptyDs
    envSucceedsEmptyDs (fun n => 2000 * n) (fun n => 2000 * n)
    300000 0 0 1 1 succeededRunEmptyDs succeededRunEmptyDs
    (by intro i hi; omega) (by norm_num) rfl rfl rfl (by norm_num)
    (by intro i hi; omega) (by decide) rfl rfl (by norm_num)
  exact ⟨h1.1 "ds_1" [itemTitleX] rfl (by decide) rfl,
    h1.2.2.2.1 "ds_1" [itemTitleX] rfl (by decide) rfl,
    h2.2.1 rfl, h2.2.2.2.2.1 rfl,
    h3.2.2.1 rfl, h3.2.2.2.2.2 rfl⟩

theorem datasets_agree {env : ApifyEnv} {r : RunRecord} (k : Nat)
    (hstable : ∀ j, env.getRun j = Except.ok r) :
    ApifyClient.getRunDataset env k = ServerWait.fetchDatasetOnSuccess env r
    := by
  simp [ApifyClient.getRunDataset, ApifyClient.getRun, hstable k,
    ServerWait.fetchDatasetOnSuccess]

/- Claim C6. -/

/-- C6, counterexample, three divergences between the two loops, each on
one identical sequence of remote responses with identical timing. First, a
run that stays RUNNING: both loops time out but with different error
messages. Second, a sequence whose first run-status response carries
dataset id ds_1 and whose later responses lack it: the client refetches the
run inside its dataset accessor and so consumes a response the server never
requests, ending with an empty dataset where the server returns the item -
the success outcomes differ, which is why agreement needs a stable
sequence. Third, a first check exactly at the 300000 ms budget over a
succeeded run: the client times out while the server still returns the
success outcome, so the agreement also needs checks strictly below the
budget. -/
theorem c6_counterexample :
    ApifyClient.waitForRun envAllRunning (fun n => 151000 * n)
      ApifyClient.defaultMaxWaitTime 4 =
      (PollResult.timedOut "Actor run timed out - taking longer than expected",
       [0, 151000]) ∧
    ServerWait.pollRun envAllRunning (fun n => 151000 * n) 4 =
      (PollResult.timedOut "Run timed out - taking longer than expected",
       [0, 151000]) ∧
    "Actor run timed out - taking longer than expected" ≠
      "Run timed out - taking longer than expected" ∧
    ApifyClient.waitForRun envSucceedsThenNoDs (fun n => 2000 * n)
      ApifyClient.defaultMaxWaitTime 1 =
      (PollResult.success
        { status := "SUCCEEDED",
          finishedAt := some "2025-01-01T00:00:00.000Z", stats := none,
          dataset := [], run := succeededRunWithDs },
       [0]) ∧
    ServerWait.pollRun envSucceedsThenNoDs (fun n => 2000 * n) 1 =
      (PollResult.success
        { status := "SUCCEEDED",
          finishedAt := some "2025-01-01T00:00:00.000Z", stats := none,
          dataset := [itemTitleX], run := succeededRunWithDs },
       [0]) ∧
    ([] : List Jval) ≠ [itemTitleX] ∧
    ApifyClient.waitForRun envSucceedsWithItems (fun _ => 300000)
      ApifyClient.defaultMaxWaitTime 1 =
      (PollResult.timedOut "Actor run timed out - taking longer than expected",
       []) ∧
    ServerWait.pollRun envSucceedsWithItems (fun _ => 300000) 1 =
      (PollResult.success
        { status := "SUCCEEDED",
          finishedAt := some "2025-01-01T00:00:00.000Z", stats := none,
          dataset := [itemTitleX], run := succeededRunWithDs },
       [300000]) :=
  ⟨rfl, rfl, by decide, rfl, rfl, fun h => List.noConfusion h, rfl, rfl⟩

/-- C6, amended: under a stable platform (the status endpoint returns the
same record on every fetch) and the default 300000 ms budget, with the
first check strictly below the budget, the two loops produce the same
success outcome (same status, finishedAt, stats, dataset and run) and the
same run-failure error; outside those conditions they genuinely diverge,
each way shown by the counterexample: on a run that stays pending both fail
with a timeout error - the client exactly at the first check at or past the
budget, the server exactly at the first check strictly past it - but with
different fixed messages; on an identical but non-stable sequence the
client refetch can read a later record, so the success datasets can differ;
and at a first check exactly at the budget over a terminal record the
client times out while the server still returns the success outcome. -/
theorem c6_amended_loops_agree
    (env : ApifyEnv) (elapsedAt : Nat → Nat) (r : RunRecord)
    (hstable : ∀ k, env.getRun k = Except.ok r) :
    (∀ fuelC fuelS, 1 ≤ fuelC → 1 ≤ fuelS →
      elapsedAt 0 < ApifyClient.defaultMaxWaitTime → r.status = "SUCCEEDED" →
      ApifyClient.waitForRun env elapsedAt ApifyClient.defaultMaxWaitTime
          fuelC =
        (PollResult.success
          { status := r.status, finishedAt := r.finishedAt, stats := r.stats,
            dataset := ServerWait.fetchDatasetOnSuccess env r, run := r },
         [elapsedAt 0]) ∧
      ServerWait.pollRun env elapsedAt fuelS =
        (PollResult.success
          { status := r.status, finishedAt := r.finishedAt, stats := r.stats,
            dataset := ServerWait.fetchDatasetOnSuccess env r, run := r },
         [elapsedAt 0])) ∧
    (∀ fuelC fuelS, 1 ≤ fuelC → 1 ≤ fuelS →
      elapsedAt 0 < ApifyClient.defaultMaxWaitTime →
      (r.status = "FAILED" ∨ r.status = "ABORTED" ∨
        r.status = "TIMED-OUT") →
      ApifyClient.waitForRun env elapsedAt ApifyClient.defaultMaxWaitTime
          fuelC =
        (PollResult.runFailed (runFailureMessage r), [elapsedAt 0]) ∧
      ServerWait.pollRun env elapsedAt fuelS =
        (PollResult.runFailed (runFailureMessage r), [elapsedAt 0])) ∧
    (∀ bigN bigM fuelC fuelS, r.pendingStatus →
      (∀ i, i < bigN → elapsedAt i < ApifyClient.defaultMaxWaitTime) →
      ApifyClient.defaultMaxWaitTime ≤ elapsedAt bigN → bigN + 1 ≤ fuelC →
      (∀ i, i < bigM → elapsedAt i ≤ ServerWait.maxWaitTime) →
      ServerWait.maxWaitTime < elapsedAt bigM → bigM + 1 ≤ fuelS →
      ApifyClient.waitForRun env elapsedAt ApifyClient.defaultMaxWaitTime
          fuelC =
        (PollResult.timedOut
          "Actor run timed out - taking longer than expected",
         (List.range bigN).map elapsedAt) ∧
      ServerWait.pollRun env elapsedAt fuelS =
        (PollResult.timedOut "Run timed out - taking longer than expected",
         (List.range bigM).map elapsedAt)) ∧
    (∀ fuelC fuelS, 1 ≤ fuelC → 1 ≤ fuelS →
      elapsedAt 0 = ApifyClient.defaultMaxWaitTime →
      ApifyClient.waitForRun env elapsedAt ApifyClient.defaultMaxWaitTime
          fuelC =
        (PollResult.timedOut
          "Actor run timed out - taking longer than expected", []) ∧
      (r.status = "SUCCEEDED" →
        ServerWait.pollRun env elapsedAt fuelS =
          (PollResult.success
            { status := r.status, finishedAt := r.finishedAt,
              stats := r.stats,
              dataset := ServerWait.fetchDatasetOnSuccess env r, run := r },
           [elapsedAt 0]))) ∧
    "Actor run timed out - taking longer than expected" ≠
      "Run timed out - taking longer than expected" := by
  have hbudget : ApifyClient.defaultMaxWaitTime = ServerWait.maxWaitTime := rfl
  refine ⟨?_, ?_, ?_, ?_, by decide⟩
  · intro fuelC fuelS hfC hfS h0 hs
    have h0s : elapsedAt 0 ≤ ServerWait.maxWaitTime := by
      rw [← hbudget]
      exact Nat.le_of_lt h0
    constructor
    · have h := client_success_at 0
        (by intro i hi; omega) h0 (hstable 0) hs hfC
      rwa [datasets_agree 1 hstable] at h
    · have h := server_success_at 0
        (by intro i hi; omega) h0s (hstable 0) hs hfS
      simpa using h
  · intro fuelC fuelS hfC hfS h0 hf
    have h0s : elapsedAt 0 ≤ ServerWait.maxWaitTime := by
      rw [← hbudget]
      exact Nat.le_of_lt h0
    constructor
    · have h := client_failed_at 0
        (by intro i hi; omega) h0 (hstable 0) hf hfC
      simpa using h
    · have h := server_failed_at 0
        (by intro i hi; omega) h0s (hstable 0) hf hfS
      simpa using h
  · intro bigN bigM fuelC fuelS hp hq hge hfC hq2 hgt hfS
    constructor
    · exact client_times_out
        (by intro i hi; exact ⟨hq i hi, r, hstable i, hp⟩) hge hfC
    · exact server_times_out
        (by intro i hi; exact ⟨hq2 i hi, r, hstable i, hp⟩) hgt hfS
  · intro fuelC fuelS hfC hfS h0
    constructor
    · obtain ⟨k, rfl⟩ : ∃ k, fuelC = k + 1 := ⟨fuelC - 1, by omega⟩
      exact client_step_timeout (Nat.not_lt.mpr (Nat.le_of_eq h0.symm))
    · intro hs
      have h0s : elapsedAt 0 ≤ ServerWait.maxWaitTime := by
        rw [← hbudget]
        exact Nat.le_of_eq h0
      have h := server_success_at 0
        (by intro i hi; omega) h0s (hstable 0) hs hfS
      simpa using h

/-- C6 witness: the amended theorem on a run that stays pending, with both
loops checking at 0 ms, 200000 ms and 400000 ms: both make the same two
fetches and both time out, each with its own fixed message. -/
theorem c6_amended_loops_agree_witness :
    ApifyClient.waitForRun envAllRunning (fun n => 200000 * n)
      ApifyClient.defaultMaxWaitTime 3 =
      (PollResult.timedOut "Actor run timed out - taking longer than expected",
       [0, 200000]) ∧
    ServerWait.pollRun envAllRunning (fun n => 200000 * n) 3 =
      (PollResult.timedOut "Run timed out - taking longer than expected",
       [0, 200000]) := by
  have h := (c6_amended_loops_agree envAllRunning (fun n => 200000 * n)
    runningRun (fun _ => rfl)).2.2.1 2 2 3 3
    (by decide)
    (by
      intro i hi
      show 200000 * i < ApifyClient.defaultMaxWaitTime
      have hm : ApifyClient.defaultMaxWaitTime = 300000 := rfl
      omega)
    (by decide)
    (by norm_num)
    (by
      intro i hi
      show 200000 * i ≤ ServerWait.maxWaitTime
      have hm : ServerWait.maxWaitTime = 300000 := rfl
      omega)
    (by decide)
    (by norm_num)
  exact h

theorem jsStringOr_of_str {m d : String} (hne : m ≠ "") :
    jsStringOr (some (Jval.jstr m)) d = m := by
  simp [jsStringOr, Jval.truthy, Jval.toJSString, hne]

theorem jsStringOr_of_none (d : String) : jsStringOr none d = d := rfl

theorem jsStringOr_of_falsy {v : Jval} {d : String}
    (hv : v.truthy = false) : jsStringOr (some v) d = d := by
  simp [jsStringOr, hv]

/- Claim C7. -/

/-- C7, counterexample, two inputs. First, an HTTP 400 response whose body
parses to a JSON object with an error.message field that is present but
empty: the claim says the raised message then equals that field, i.e. the
empty string; both request helpers instead fall back to the HTTP status
line, because the source keys on JavaScript truthiness, not on presence.
Second, a success-status response whose body fails to parse: the frontend
client raises an ApiError with status 0 although an HTTP response did
arrive, so status 0 is not reserved for network-level failures that
produced no HTTP response. -/
theorem c7_counterexample :
    errorMessageField emptyMessageBody = some (Jval.jstr "") ∧
    ApiClient.makeRequest
        (FetchOutcome.httpErrorResponse 400 "Bad Request"
          (some emptyMessageBody)) =
      Except.error { message := "HTTP 400: Bad Request", status := 400 } ∧
    ApifyClient.makeRequest
        (FetchOutcome.httpErrorResponse 400 "Bad Request"
          (some emptyMessageBody)) =
      Except.error "HTTP 400: Bad Request" ∧
    "HTTP 400: Bad Request" ≠ "" ∧
    ApiClient.makeRequest
        (FetchOutcome.okResponse
          (Except.error "Unexpected end of JSON input")) =
      Except.error
        { message := "Unexpected end of JSON input", status := 0 } :=
  ⟨rfl, rfl, rfl, by decide, rfl⟩

/-- C7, amended: on a non-success HTTP response both request helpers raise
the error.message field of the parsed body when the parse succeeded and the
field holds a non-empty string, and the HTTP status line when the field is
absent, the parse failed, or the field holds a falsy value such as the
empty string; the frontend ApiError carries the numeric HTTP status, and a
network failure with no HTTP response carries status 0 - though status 0 is
not exclusive to those: a parse failure of a success-status body also
carries it, per the counterexample. -/
theorem c7_amended_transport_error
    (status : Nat) (statusText : String) (body : Jval) (m : String)
    (hm : errorMessageField body = some (Jval.jstr m)) (hne : m ≠ "") :
    ApifyClient.makeRequest
        (FetchOutcome.httpErrorResponse status statusText (some body)) =
      Except.error m ∧
    ApiClient.makeRequest
        (FetchOutcome.httpErrorResponse status statusText (some body)) =
      Except.error { message := m, status := status } ∧
    (∀ st stx b2, errorMessageField b2 = none →
      ApifyClient.makeRequest
          (FetchOutcome.httpErrorResponse st stx (some b2)) =
        Except.error (httpFallbackMessage st stx) ∧
      ApiClient.makeRequest
          (FetchOutcome.httpErrorResponse st stx (some b2)) =
        Except.error { message := httpFallbackMessage st stx, status := st }) ∧
    (∀ st stx b2 v, errorMessageField b2 = some v → v.truthy = false →
      ApifyClient.makeRequest
          (FetchOutcome.httpErrorResponse st stx (some b2)) =
        Except.error (httpFallbackMessage st stx) ∧
      ApiClient.makeRequest
          (FetchOutcome.httpErrorResponse st stx (some b2)) =
        Except.error { message := httpFallbackMessage st stx, status := st }) ∧
    (∀ st stx,
      ApifyClient.makeRequest (FetchOutcome.httpErrorResponse st stx none) =
        Except.error (httpFallbackMessage st stx) ∧
      ApiClient.makeRequest (FetchOutcome.httpErrorResponse st stx none) =
        Except.error { message := httpFallbackMessage st stx, status := st }) ∧
    (∀ msg, ApiClient.makeRequest (FetchOutcome.networkFailure msg) =
      Except.error { message := msg, status := 0 }) ∧
    (∀ parseMsg,
      ApiClient.makeRequest (FetchOutcome.okResponse (Except.error parseMsg))
        = Except.error { message := parseMsg, status := 0 }) := by
  refine ⟨?_, ?_, ?_, ?_, ?_, fun msg => rfl, fun parseMsg => rfl⟩
  · simp [ApifyClient.makeRequest, ApifyClient.transportErrorMessage, hm,
      jsStringOr_of_str hne]
  · simp [ApiClient.makeRequest, ApiClient.requestErrorMessage, hm,
      jsStringOr_of_str hne]
  · intro st stx b2 hb2
    constructor
    · simp [ApifyClient.makeRequest, ApifyClient.transportErrorMessage, hb2,
        jsStringOr_of_none]
    · simp [ApiClient.makeRequest, ApiClient.requestErrorMessage, hb2,
        jsStringOr_of_none]
  · intro st stx b2 v hb2 hv
    constructor
    · simp [ApifyClient.makeRequest, ApifyClient.transportErrorMessage, hb2,
        jsStringOr_of_falsy hv]
    · simp [ApiClient.makeRequest, ApiClient.requestErrorMessage, hb2,
        jsStringOr_of_falsy hv]
  · intro st stx
    constructor
    · rfl
    · rfl

/-- C7 witness: an HTTP 429 response carrying a rate limit message in the
body is raised with exactly that message, with status 429 on the frontend
ApiError. -/
theorem c7_amended_transport_error_witness :
    ApifyClient.makeRequest
        (FetchOutcome.httpErrorResponse 429 "Too Many Requests"
          (some rateLimitBody)) =
      Except.error "Rate limit exceeded" ∧
    ApiClient.makeRequest
        (FetchOutcome.httpErrorResponse 429 "Too Many Requests"
          (some rateLimitBody)) =
      Except.error { message := "Rate limit exceeded", status := 429 } := by
  have h := c7_amended_transport_error 429 "Too Many Requests" rateLimitBody
    "Rate limit exceeded" rfl (by decide)
  exact ⟨h.1, h.2.1⟩

theorem string_append_left_cancel {p a b : String} (h : p ++ a = p ++ b) :
    a = b := by
  have hd := congrArg String.data h
  rw [String.data_append, String.data_append] at hd
  have hl := List.append_cancel_left hd
  cases a
  cases b
  exact congrArg String.mk (by simpa using hl)

/- Claim C8. -/

/-- C8, counterexample: a transport failure whose cause message happens to
be the fixed no-schema text produces exactly the same error value as an
actor definition with no input schema, so the two conditions are not
distinguishable in general: the accessor signals both through one error kind
whose message carries the same context text in front. -/
theorem c8_counterexample :
    ApifyClient.getActorSchema
        (Except.error "No input schema found for this actor") =
      Except.error
        "Failed to fetch actor schema: No input schema found for this actor" ∧
    ApifyClient.getActorSchema
        (Except.ok { defaultRunOptions := none }) =
      Except.error
        "Failed to fetch actor schema: No input schema found for this actor"
    :=
  ⟨rfl, rfl⟩

/-- C8, amended: when the fetched definition lacks a nested input schema the
accessor fails with the fixed message Failed to fetch actor schema: No input
schema found for this actor, while a transport failure with cause e fails
with Failed to fetch actor schema: followed by e; the two errors therefore
differ exactly when e differs from the fixed no-schema text - the
distinction is by message content only, not by error kind. -/
theorem c8_amended_schema_error
    (detail : ActorDetail) (e : String)
    (hnone : detail.defaultRunOptions.bind DefaultRunOptions.inputSchema =
      none)
    (hne : e ≠ "No input schema found for this actor") :
    ApifyClient.getActorSchema (Except.ok detail) =
      Except.error ("Failed to fetch actor schema: " ++
        "No input schema found for this actor") ∧
    ApifyClient.getActorSchema (Except.error e) =
      Except.error ("Failed to fetch actor schema: " ++ e) ∧
    ApifyClient.getActorSchema (Except.error e) ≠
      ApifyClient.getActorSchema (Except.ok detail) := by
  have h1 : ApifyClient.getActorSchema (Except.ok detail) =
      Except.error ("Failed to fetch actor schema: " ++
        "No input schema found for this actor") := by
    cases hd : detail.defaultRunOptions with
    | none => simp [ApifyClient.getActorSchema, hd]
    | some opts =>
      have hs : opts.inputSchema = none := by
        rw [hd] at hnone
        simpa using hnone
      simp [ApifyClient.getActorSchema, hd, hs]
  refine ⟨h1, rfl, ?_⟩
  rw [h1]
  intro hc
  simp only [ApifyClient.getActorSchema, Except.error.injEq] at hc
  exact hne (string_append_left_cancel hc)

/-- C8 witness: an authentication failure and a schema-less actor produce
the two distinct error messages. -/
theorem c8_amended_schema_error_witness :
    ApifyClient.getActorSchema
        (Except.ok { defaultRunOptions := none }) =
      Except.error ("Failed to fetch actor schema: " ++
        "No input schema found for this actor") ∧
    ApifyClient.getActorSchema (Except.error "HTTP 401: Unauthorized") =
      Except.error
        ("Failed to fetch actor schema: " ++ "HTTP 401: Unauthorized") ∧
    ApifyClient.getActorSchema (Except.error "HTTP 401: Unauthorized") ≠
      ApifyClient.getActorSchema
        (Except.ok { defaultRunOptions := none }) := by
  have h := c8_amended_schema_error { defaultRunOptions := none }
    "HTTP 401: Unauthorized" rfl (by decide)
  exact h

/- Claim C9. -/

/-- A listed record with no title, no description and no stats. -/
def bareActor : RawActor :=
  { id := "a1", name := "my-actor", title := none, description := none,
    stats := none }

/-- C9: the listing mapping substitutes defaults for absent fields - title
defaults to the record name, description to the placeholder text, stats to
the totalRuns 0 object - and in particular a record missing both title and
description maps to the name and the placeholder; id and name are carried
through unchanged. -/
theorem c9_actor_listing_defaults (actor : RawActor) :
    (ApifyClient.mapActor actor).id = actor.id ∧
    (ApifyClient.mapActor actor).name = actor.name ∧
    (actor.title = none → (ApifyClient.mapActor actor).title = actor.name) ∧
    (actor.description = none →
      (ApifyClient.mapActor actor).description =
        "No description available") ∧
    (actor.stats = none →
      (ApifyClient.mapActor actor).stats = defaultActorStats) ∧
    (actor.title = none → actor.description = none →
      (ApifyClient.mapActor actor).title = actor.name ∧
      (ApifyClient.mapActor actor).description =
        "No description available") ∧
    ApifyClient.getActors [actor] = [ApifyClient.mapActor actor] := by
  refine ⟨rfl, rfl, ?_, ?_, ?_, ?_, rfl⟩
  · intro h
    simp [ApifyClient.mapActor, jsOrStr, h]
  · intro h
    simp [ApifyClient.mapActor, jsOrStr, h]
  · intro h
    simp [ApifyClient.mapActor, jsOrJval, h]
  · intro h1 h2
    exact ⟨by simp [ApifyClient.mapActor, jsOrStr, h1],
      by simp [ApifyClient.mapActor, jsOrStr, h2]⟩

/-- C9 witness: the record with both title and description missing maps to
its name, the placeholder description and the default stats object. -/
theorem c9_actor_listing_defaults_witness :
    (ApifyClient.mapActor bareActor).title = "my-actor" ∧
    (ApifyClient.mapActor bareActor).description =
      "No description available" ∧
    (ApifyClient.mapActor bareActor).stats = defaultActorStats := by
  have h := c9_actor_listing_defaults bareActor
  exact ⟨h.2.2.1 rfl, h.2.2.2.1 rfl, h.2.2.2.2.1 rfl⟩

/- Claim C10. -/

/-- C10: every failure of the frontend proxy request layer is an ApiError
with a numeric status; a parse failure of a success-status body and a
network failure are both converted to status 0, while a non-success HTTP
response carries its actual status. -/
theorem c10_apiclient_error_status :
    (∀ m, ApiClient.makeRequest (FetchOutcome.okResponse (Except.error m)) =
      Except.error { message := m, status := 0 }) ∧
    (∀ m, ApiClient.makeRequest (FetchOutcome.networkFailure m) =
      Except.error { message := m, status := 0 }) ∧
    (∀ st stx body, ApiClient.makeRequest
        (FetchOutcome.httpErrorResponse st stx body) =
      Except.error
        { message := ApiClient.requestErrorMessage st stx body,
          status := st }) ∧
    (∀ body, ApiClient.makeRequest
        (FetchOutcome.okResponse (Except.ok body)) = Except.ok body) :=
  ⟨fun _ => rfl, fun _ => rfl, fun _ _ _ => rfl, fun _ => rfl⟩
